import Mathlib

/-! Parfaite Shop: catalog queries, admin mutations and admin request handlers.

A shallow embedding of `src/db.js` and of the admin part of `src/server.js`.

* The SQLite store is a record of three tables, each a list of rows in rowid order.
* Every SQL statement of `db.js` is evaluated by list operations that follow the SQLite
  semantics of that statement (`LEFT JOIN`, `LIKE`, `ORDER BY ... DESC`, `LIMIT ? OFFSET ?`,
  the `NOT NULL`, `UNIQUE` and `FOREIGN KEY` constraints of the schema).
* A statement that throws in JavaScript returns `Except.error`.
* What the code takes from outside the repository is a parameter: the `slugify` package,
  `bcrypt.compareSync`, `Date.now()` and SQLite's `CURRENT_TIMESTAMP`.
-/

set_option autoImplicit false

namespace ParfaiteShop

/-! ## Tables (`db.js`, lines 10-32) -/

/-- Row of the `users` table. -/
structure User where
  id : Nat
  username : String
  password_hash : String
  deriving DecidableEq, Repr

/-- Row of the `categories` table. -/
structure Category where
  id : Nat
  name : String
  slug : String
  deriving DecidableEq, Repr

/-- Row of the `products` table. `none` is SQL `NULL`; `title`, `slug` and `price` are
`NOT NULL`, `created_at` always holds the `CURRENT_TIMESTAMP` default, because no statement
of the program writes that column. -/
structure Product where
  id : Nat
  title : String
  slug : String
  description : Option String
  price : Int
  image_path : Option String
  category_id : Option Nat
  created_at : String
  deriving DecidableEq, Repr

/-- The store. Each table lists its rows in rowid order. `productSeq` is the entry of
`sqlite_sequence` for `products` (the table is `AUTOINCREMENT`). -/
structure Db where
  users : List User
  categories : List Category
  products : List Product
  productSeq : Nat
  deriving DecidableEq, Repr

/-- What lies outside the repository: the `slugify` package called with
`{ lower: true, strict: true }`, `bcrypt.compareSync` on two strings, and whether the SQLite
build of the driver enforces foreign keys. -/
structure Env where
  slugify : String → String
  compareSync : String → String → Bool
  foreignKeys : Bool

/-- The two clock readings of one statement: `Date.now()` in milliseconds and the text
SQLite puts in `created_at` for `CURRENT_TIMESTAMP`. -/
structure Clock where
  now : Nat
  timestamp : String
  deriving DecidableEq, Repr

/-- JavaScript exceptions the modelled code can raise. -/
inductive Err where
  | slugifyStringExpected
  | notNull (column : String)
  | uniqueFailed (column : String)
  | foreignKeyFailed
  | bcryptArguments
  | message (text : String)
  deriving DecidableEq, Repr

/-- The `e.message` a `catch (e)` block reads. -/
def Err.text : Err → String
  | .slugifyStringExpected => "slugify: string argument expected"
  | .notNull column => "NOT NULL constraint failed: " ++ column
  | .uniqueFailed column => "UNIQUE constraint failed: " ++ column
  | .foreignKeyFailed => "FOREIGN KEY constraint failed"
  | .bcryptArguments => "data and hash arguments required"
  | .message text => text

/-! ## JavaScript and SQLite primitives -/

/-- JavaScript truthiness of a value that is a string or `undefined`/`null`. -/
def jsTruthy : Option String → Bool
  | some s => !s.isEmpty
  | none => false

/-- ASCII lower-casing, the only case folding SQLite's built-in `LIKE` performs. -/
def asciiLower (c : Char) : Char :=
  if 'A' ≤ c ∧ c ≤ 'Z' then Char.ofNat (c.toNat + 32) else c

/-- SQLite `LIKE` without `ESCAPE`: `%` matches any run of characters (the rest of the
pattern is tried at every position of the text), `_` matches one character, any other
character matches itself up to ASCII case. The first argument is the pattern, the second
the text. -/
def likeMatch : List Char → List Char → Bool
  | [], s => s.isEmpty
  | p :: ps, s =>
    if p = '%' then s.tails.any (likeMatch ps)
    else
      match s with
      | [] => false
      | c :: cs => (p == '_' || asciiLower p == asciiLower c) && likeMatch ps cs

/-- The SQL expression `text LIKE pattern`. -/
def sqlLike (text pattern : String) : Bool :=
  likeMatch pattern.toList text.toList

/-- One digit of `Number.prototype.toString(36)`. -/
def digit36 (d : Nat) : Char :=
  if d < 10 then Char.ofNat (48 + d) else Char.ofNat (87 + d)

/-- Digits of `n` in base 36, most significant first, pushed in front of `acc`. -/
def toDigits36 : Nat → Nat → List Char → List Char
  | 0, _, acc => acc
  | fuel + 1, n, acc =>
    if n / 36 = 0 then digit36 (n % 36) :: acc
    else toDigits36 fuel (n / 36) (digit36 (n % 36) :: acc)

/-- The JavaScript `n.toString(36)` of a non-negative integer (`Date.now()` is one). -/
def toString36 (n : Nat) : String :=
  String.mk (toDigits36 (n + 1) n [])

/-- The JavaScript `WhiteSpace` and `LineTerminator` code points `parseInt` skips. -/
def isJsWhitespace (c : Char) : Bool :=
  let n := c.toNat
  n = 9 || n = 10 || n = 11 || n = 12 || n = 13 || n = 32 || n = 0xA0 || n = 0x1680 ||
  (0x2000 ≤ n && n ≤ 0x200A) || n = 0x2028 || n = 0x2029 || n = 0x202F || n = 0x205F ||
  n = 0x3000 || n = 0xFEFF

/-- Value of a run of decimal digits. -/
def digitsValue (ds : List Char) : Nat :=
  ds.foldl (fun acc c => 10 * acc + (c.toNat - 48)) 0

/-- The JavaScript `parseInt(s, 10)`: leading white space, an optional sign, then the longest
run of decimal digits; `none` is `NaN`. The exact integer is kept (JavaScript rounds
magnitudes above 2^53 to a double; no theorem below depends on such values). -/
def parseInt10 (s : String) : Option Int :=
  let cs := s.toList.dropWhile isJsWhitespace
  let signed : Bool × List Char :=
    match cs with
    | '-' :: rest => (true, rest)
    | '+' :: rest => (false, rest)
    | _ => (false, cs)
  let ds := signed.2.takeWhile Char.isDigit
  if ds.isEmpty then none
  else if signed.1 then some (-(digitsValue ds : Int)) else some (digitsValue ds : Int)

/-! ## Catalog queries (`db.js`, lines 54-80) -/

/-- The join `FROM products p LEFT JOIN categories c ON p.category_id = c.id`: every product,
once per matching category, or once with a `NULL` category when none matches. Products are
scanned in rowid order. -/
def leftJoinCategories (db : Db) : List (Product × Option Category) :=
  db.products.flatMap fun p =>
    match db.categories.filter (fun c => p.category_id == some c.id) with
    | [] => [(p, none)]
    | c :: cs => (c :: cs).map fun c => (p, some c)

/-- A term appended to `WHERE 1=1` together with its bound parameter. -/
inductive Cond where
  | titleLike (pattern : String)
  | categorySlugEq (slug : String)
  deriving DecidableEq, Repr

/-- Truth of one `WHERE` term on a joined row; a comparison with `NULL` is not true. -/
def Cond.holds (r : Product × Option Category) : Cond → Bool
  | .titleLike pattern => sqlLike r.1.title pattern
  | .categorySlugEq slug =>
    match r.2 with
    | some c => c.slug == slug
    | none => false

/-- The clause `ORDER BY p.created_at DESC`. SQLite keeps rows with equal keys in the order the scan
produced them, so this is a stable sort; `created_at` is `TEXT`, compared character by
character. -/
def orderByCreatedAtDesc (rows : List (Product × Option Category)) :
    List (Product × Option Category) :=
  rows.insertionSort fun a b => b.1.created_at.toList ≤ a.1.created_at.toList

/-- The clause `LIMIT limit OFFSET offset` of SQLite: a negative offset counts as zero and a negative
limit means no limit. SQLite holds both as 64-bit integers and JavaScript as doubles; the
theorem on pages keeps them at most 2^53, where the two agree with the integers here. -/
def limitOffset {α : Type} (limit offset : Int) (rows : List α) : List α :=
  let rest := rows.drop offset.toNat
  if limit < 0 then rest else rest.take limit.toNat

/-- Row of `SELECT p.*, c.name as category_name, c.slug as category_slug`. -/
structure ProductRow where
  product : Product
  category_name : Option String
  category_slug : Option String
  deriving DecidableEq, Repr

/-- The select list of `listProducts` and `getProductBySlug` on one joined row. -/
def toRow (r : Product × Option Category) : ProductRow :=
  { product := r.1, category_name := r.2.map Category.name, category_slug := r.2.map Category.slug }

/-- Argument object of `listProducts` and `countProducts`; `none` is `undefined`. -/
structure Filter where
  q : Option String
  categorySlug : Option String
  limit : Option Int
  offset : Option Int
  deriving DecidableEq, Repr

/-- The `getCategories` of `db.js`: `SELECT * FROM categories ORDER BY name`. -/
def getCategories (db : Db) : List Category :=
  db.categories.insertionSort fun a b => a.name.toList ≤ b.name.toList

/-- The `getCategoryBySlug` of `db.js`: first row of `WHERE slug = ?`. -/
def getCategoryBySlug (db : Db) (slug : String) : Option Category :=
  db.categories.find? fun c => c.slug == slug

/-- The `listProducts` of `db.js` (lines 56-68). -/
def listProducts (db : Db) (f : Filter) : List ProductRow :=
  let limit := f.limit.getD 24
  let offset := f.offset.getD 0
  let params : List Cond := []
  let params := if jsTruthy f.q then params ++ [Cond.titleLike ("%" ++ f.q.getD "" ++ "%")] else params
  let params :=
    if jsTruthy f.categorySlug then params ++ [Cond.categorySlugEq (f.categorySlug.getD "")]
    else params
  let rows := (leftJoinCategories db).filter fun r => params.all (Cond.holds r)
  (limitOffset limit offset (orderByCreatedAtDesc rows)).map toRow

/-- The `countProducts` of `db.js` (lines 69-75); `limit` and `offset` are not read. -/
def countProducts (db : Db) (f : Filter) : Nat :=
  let params : List Cond := []
  let params := if jsTruthy f.q then params ++ [Cond.titleLike ("%" ++ f.q.getD "" ++ "%")] else params
  let params :=
    if jsTruthy f.categorySlug then params ++ [Cond.categorySlugEq (f.categorySlug.getD "")]
    else params
  ((leftJoinCategories db).filter fun r => params.all (Cond.holds r)).length

/-- The `getProductBySlug` of `db.js` (lines 76-80): first row of `WHERE p.slug = ?`. -/
def getProductBySlug (db : Db) (slug : String) : Option ProductRow :=
  ((leftJoinCategories db).find? fun r => r.1.slug == slug).map toRow

/-- The filter as the spec words it, on one joined row: the title matches the text query when
one is given, and the category slug equals the given one when one is given. It is written
apart from the `WHERE` terms `listProducts` and `countProducts` assemble, to state what their
rows are. -/
def matchesFilter (f : Filter) (r : Product × Option Category) : Bool :=
  (!jsTruthy f.q || sqlLike r.1.title ("%" ++ f.q.getD "" ++ "%")) &&
  (!jsTruthy f.categorySlug || r.2.map Category.slug == some (f.categorySlug.getD ""))

/-! ## Admin mutations (`db.js`, lines 81-99) -/

/-- Argument object of `createProduct` and `updateProduct`. `none` is `undefined` or `null`;
for `price`, `none` also stands for `NaN`, which SQLite binds as `NULL`. -/
structure ProductArgs where
  title : Option String
  description : Option String
  price : Option Int
  image_path : Option String
  category_id : Option Nat
  deriving DecidableEq, Repr

/-- The JavaScript `category_id || null`: the falsy number `0` becomes `null`. -/
def orNull : Option Nat → Option Nat
  | some 0 => none
  | some n => some n
  | none => none

/-- The JavaScript `a || b` on values that are strings or `undefined`/`null`. -/
def jsOr (a b : Option String) : Option String :=
  if jsTruthy a then a else b

/-- The `FOREIGN KEY(category_id) REFERENCES categories(id)` check of one written row. -/
def foreignKeyOk (env : Env) (db : Db) (category_id : Option Nat) : Bool :=
  match category_id with
  | none => true
  | some cid => !env.foreignKeys || db.categories.any fun c => c.id == cid

/-- Rowid an `AUTOINCREMENT` table gives a new row: one more than the largest rowid the
table holds or has ever held. -/
def nextProductId (db : Db) : Nat :=
  (db.products.foldl (fun m p => max m p.id) db.productSeq) + 1

/-- The `createProduct` of `db.js` (lines 81-87). `slugify` throws on a title that is not a
string; the `INSERT` throws on a `NULL` price, on a slug some row already has, and on a
category id that breaks the foreign key. On success the new store and the slug are returned. -/
def createProduct (env : Env) (clock : Clock) (db : Db) (a : ProductArgs) :
    Except Err (Db × String) :=
  match a.title with
  | none => .error .slugifyStringExpected
  | some title =>
    let slug := env.slugify title ++ "-" ++ toString36 clock.now
    match a.price with
    | none => .error (.notNull "products.price")
    | some price =>
      if db.products.any (fun p => p.slug == slug) then .error (.uniqueFailed "products.slug")
      else if !foreignKeyOk env db (orNull a.category_id) then .error .foreignKeyFailed
      else
        let row : Product :=
          { id := nextProductId db, title := title, slug := slug, description := a.description,
            price := price, image_path := a.image_path, category_id := orNull a.category_id,
            created_at := clock.timestamp }
        .ok ({ db with products := db.products ++ [row], productSeq := row.id }, slug)

/-- The `SELECT * FROM products WHERE id = ?` of `updateProduct` and of the edit handlers. -/
def productById (db : Db) (id : Nat) : Option Product :=
  db.products.find? fun p => p.id == id

/-- The `updateProduct` of `db.js` (lines 88-98). The returned `none` is the JavaScript
`false` of an unknown id. The `UPDATE` throws on a `NULL` title or price, on a slug another
row has, and on a category id that breaks the foreign key. -/
def updateProduct (env : Env) (clock : Clock) (db : Db) (id : Nat) (a : ProductArgs) :
    Except Err (Db × Option String) :=
  match productById db id with
  | none => .ok (db, none)
  | some product =>
    let slugE : Except Err String :=
      if a.title ≠ some product.title then
        match a.title with
        | none => .error .slugifyStringExpected
        | some title => .ok (env.slugify title ++ "-" ++ toString36 clock.now)
      else .ok product.slug
    match slugE with
    | .error e => .error e
    | .ok slug =>
      match a.title, a.price with
      | none, _ => .error (.notNull "products.title")
      | some _, none => .error (.notNull "products.price")
      | some title, some price =>
        if db.products.any (fun p => p.id != id && p.slug == slug) then
          .error (.uniqueFailed "products.slug")
        else if !foreignKeyOk env db (orNull a.category_id) then .error .foreignKeyFailed
        else
          let products := db.products.map fun p =>
            if p.id == id then
              { p with title := title, slug := slug, description := a.description, price := price,
                       image_path := jsOr a.image_path product.image_path,
                       category_id := orNull a.category_id }
            else p
          .ok ({ db with products := products }, some slug)

/-- The `deleteProduct` of `db.js` (line 99): `DELETE FROM products WHERE id = ?`. -/
def deleteProduct (db : Db) (id : Nat) : Db :=
  { db with products := db.products.filter fun p => p.id != id }

/-! ## Request layer (`server.js`) -/

/-- The object the login handler stores in `req.session.user`. -/
structure SessionUser where
  id : Nat
  username : String
  deriving DecidableEq, Repr

/-- What the admin handlers read from a request: the session user, the body fields
(`none` is an absent field) and the file name multer gave an uploaded image. -/
structure Request where
  sessionUser : Option SessionUser
  username : Option String
  password : Option String
  title : Option String
  description : Option String
  price : Option String
  category_slug : Option String
  file : Option String
  deriving DecidableEq, Repr

/-- Data a handler passes to `res.render`; a field the handler does not pass is empty. -/
structure Locals where
  error : Option String
  products : List ProductRow
  categories : List Category
  product : Option Product
  deriving DecidableEq, Repr

/-- Locals of a view that receives nothing but `error: null`. -/
def Locals.empty : Locals :=
  { error := none, products := [], categories := [], product := none }

/-- What a handler answers: a rendered view (with `res.locals.isAuth`, set by the middleware
of lines 48-57, and the data passed), a redirect, or the failure of an exception no `catch`
block receives. -/
inductive Response where
  | render (view : String) (isAuth : Bool) (locals : Locals)
  | redirect (url : String)
  | uncaught (e : Err)
  deriving DecidableEq, Repr

/-- Result of handling one request: the response, the store and the session user after. -/
structure Outcome where
  response : Response
  db : Db
  sessionUser : Option SessionUser
  deriving DecidableEq, Repr

/-- The routes of `server.js` whose path starts with `/admin`. The `:id` of a path is a
number: SQLite compares it with the integer primary key, and text that is no integer matches
no row, like the id of no product. -/
inductive AdminRoute where
  | getLogin
  | postLogin
  | getLogout
  | getDashboard
  | getNewProduct
  | postNewProduct
  | getEditProduct (id : Nat)
  | postEditProduct (id : Nat)
  | postDeleteProduct (id : Nat)
  deriving DecidableEq, Repr

/-- The `ensureAuth` of `server.js` (lines 35-38): `next` runs when the session has a user,
otherwise the answer is a redirect to the login page. -/
def ensureAuth (req : Request) (db : Db) (next : Unit → Outcome) : Outcome :=
  if req.sessionUser.isSome then next ()
  else { response := .redirect "/admin/login", db := db, sessionUser := req.sessionUser }

/-- Handler of `GET /admin/login` (lines 91-94). -/
def getLogin (req : Request) (db : Db) : Outcome :=
  if req.sessionUser.isSome then
    { response := .redirect "/admin", db := db, sessionUser := req.sessionUser }
  else
    { response := .render "admin/login" req.sessionUser.isSome Locals.empty, db := db,
      sessionUser := req.sessionUser }

/-- Handler of `POST /admin/login` (lines 95-103). An absent username is bound as `NULL` and
matches no row; `bcrypt.compareSync` throws on an absent password. -/
def postLogin (env : Env) (req : Request) (db : Db) : Outcome :=
  let user := db.users.find? fun u => some u.username == req.username
  match user with
  | none =>
    { response := .render "admin/login" req.sessionUser.isSome
        { Locals.empty with error := some "Identifiants invalides" },
      db := db, sessionUser := req.sessionUser }
  | some user =>
    match req.password with
    | none => { response := .uncaught .bcryptArguments, db := db, sessionUser := req.sessionUser }
    | some password =>
      if !env.compareSync password user.password_hash then
        { response := .render "admin/login" req.sessionUser.isSome
            { Locals.empty with error := some "Identifiants invalides" },
          db := db, sessionUser := req.sessionUser }
      else
        { response := .redirect "/admin", db := db,
          sessionUser := some { id := user.id, username := user.username } }

/-- Handler of `GET /admin/logout` (line 104): the session is destroyed. -/
def getLogout (_req : Request) (db : Db) : Outcome :=
  { response := .redirect "/admin/login", db := db, sessionUser := none }

/-- Handler of `GET /admin` (lines 106-109). -/
def getDashboard (req : Request) (db : Db) : Outcome :=
  ensureAuth req db fun _ =>
    let products := listProducts db { q := none, categorySlug := none, limit := some 100, offset := some 0 }
    { response := .render "admin/dashboard" req.sessionUser.isSome
        { Locals.empty with products := products },
      db := db, sessionUser := req.sessionUser }

/-- Handler of `GET /admin/products/new` (lines 111-113). -/
def getNewProduct (req : Request) (db : Db) : Outcome :=
  ensureAuth req db fun _ =>
    { response := .render "admin/new-product" req.sessionUser.isSome
        { Locals.empty with categories := getCategories db },
      db := db, sessionUser := req.sessionUser }

/-- The `cat ? cat.id : null` of both product forms, with `cat` looked up only for a truthy
`category_slug`. -/
def categoryIdOf (db : Db) (category_slug : Option String) : Option Nat :=
  let cat := if jsTruthy category_slug then getCategoryBySlug db (category_slug.getD "") else none
  cat.map Category.id

/-- The `try` block of `POST /admin/products/new` (lines 117-128): the slug to redirect to and
the new store, or the exception thrown. -/
def postNewProductTry (env : Env) (clock : Clock) (req : Request) (db : Db) :
    Except Err (Db × String) :=
  if !jsTruthy req.title || !jsTruthy req.price then .error (.message "Titre et prix requis")
  else
    let image_path := req.file.map fun filename => "/uploads/" ++ filename
    createProduct env clock db
      { title := req.title, description := req.description,
        price := parseInt10 (req.price.getD ""), image_path := image_path,
        category_id := categoryIdOf db req.category_slug }

/-- Handler of `POST /admin/products/new` (lines 115-132). -/
def postNewProduct (env : Env) (clock : Clock) (req : Request) (db : Db) : Outcome :=
  ensureAuth req db fun _ =>
    match postNewProductTry env clock req db with
    | .ok (db', slug) =>
      { response := .redirect ("/p/" ++ slug), db := db', sessionUser := req.sessionUser }
    | .error e =>
      { response := .render "admin/new-product" req.sessionUser.isSome
          { Locals.empty with categories := getCategories db, error := some e.text },
        db := db, sessionUser := req.sessionUser }

/-- Handler of `GET /admin/products/:id/edit` (lines 134-138). -/
def getEditProduct (id : Nat) (req : Request) (db : Db) : Outcome :=
  ensureAuth req db fun _ =>
    match productById db id with
    | none => { response := .redirect "/admin", db := db, sessionUser := req.sessionUser }
    | some product =>
      { response := .render "admin/edit-product" req.sessionUser.isSome
          { Locals.empty with product := some product, categories := getCategories db },
        db := db, sessionUser := req.sessionUser }

/-- The `try` block of `POST /admin/products/:id/edit` (lines 142-149): the store it leaves
and the slug to redirect to or the exception thrown. An absent price makes `parseInt` return
`NaN`; a falsy result of `updateProduct` is thrown as an error after the update ran. -/
def postEditProductTry (env : Env) (clock : Clock) (id : Nat) (req : Request) (db : Db) :
    Db × Except Err String :=
  let image_path := req.file.map fun filename => "/uploads/" ++ filename
  let price := match req.price with
    | some price => parseInt10 price
    | none => none
  match updateProduct env clock db id
      { title := req.title, description := req.description, price := price,
        image_path := image_path, category_id := categoryIdOf db req.category_slug } with
  | .error e => (db, .error e)
  | .ok (db', slug) =>
    if !jsTruthy slug then (db', .error (.message "Mise à jour impossible"))
    else (db', .ok (slug.getD ""))

/-- Handler of `POST /admin/products/:id/edit` (lines 140-154). -/
def postEditProduct (env : Env) (clock : Clock) (id : Nat) (req : Request) (db : Db) : Outcome :=
  ensureAuth req db fun _ =>
    match postEditProductTry env clock id req db with
    | (db', .ok slug) =>
      { response := .redirect ("/p/" ++ slug), db := db', sessionUser := req.sessionUser }
    | (db', .error e) =>
      { response := .render "admin/edit-product" req.sessionUser.isSome
          { Locals.empty with product := productById db' id, categories := getCategories db',
                              error := some e.text },
        db := db', sessionUser := req.sessionUser }

/-- Handler of `POST /admin/products/:id/delete` (lines 156-159). -/
def postDeleteProduct (id : Nat) (req : Request) (db : Db) : Outcome :=
  ensureAuth req db fun _ =>
    { response := .redirect "/admin", db := deleteProduct db id, sessionUser := req.sessionUser }

/-- Dispatch of a request to the handler Express registered for its route. -/
def handleAdmin (env : Env) (clock : Clock) (route : AdminRoute) (req : Request) (db : Db) :
    Outcome :=
  match route with
  | .getLogin => getLogin req db
  | .postLogin => postLogin env req db
  | .getLogout => getLogout req db
  | .getDashboard => getDashboard req db
  | .getNewProduct => getNewProduct req db
  | .postNewProduct => postNewProduct env clock req db
  | .getEditProduct id => getEditProduct id req db
  | .postEditProduct id => postEditProduct env clock id req db
  | .postDeleteProduct id => postDeleteProduct id req db

/-- The `offset` `GET /products` computes (line 71) from the page number and its limit. -/
def pageOffset (page limit : Int) : Int :=
  (page - 1) * limit

/-! ## Concrete inputs -/

/-- Modelled from the spec: the `slugify` package is not in the repository; the spec (4.1,
4.3) describes its result as the lower-cased text with every run of non-alphanumeric
characters collapsed into one separator. This ASCII version only instantiates `Env` at
concrete inputs; every general theorem holds for an arbitrary `slugify`. -/
def slugifyAscii (s : String) : String :=
  let words := (s.toList.map asciiLower).splitOnP fun c => !c.isAlphanum
  String.mk (['-'].intercalate (words.filter fun w => !w.isEmpty))

/-- A concrete environment: the ASCII `slugify`, a password check that accepts the stored
text prefixed by `hash:`, foreign keys enforced. -/
def exampleEnv : Env :=
  { slugify := slugifyAscii, compareSync := fun password hash => hash == "hash:" ++ password,
    foreignKeys := true }

/-- A concrete clock reading: 2023-11-14 22:13:20 UTC. -/
def exampleClock : Clock :=
  { now := 1700000000000, timestamp := "2023-11-14 22:13:20" }

/-- A clock reading one millisecond after `exampleClock`. -/
def laterClock : Clock :=
  { now := 1700000000001, timestamp := "2023-11-14 22:13:20" }

/-- A product created at 1699999999999 ms, with an image and a category. -/
def blueVase : Product :=
  { id := 1, title := "Blue Vase", slug := "blue-vase-loyw3v27", description := none,
    price := 900, image_path := some "/uploads/1699999999990-vase.png", category_id := some 1,
    created_at := "2023-11-14 22:13:19" }

/-- A product created at 1699999999500 ms, in the same second as `blueVase`. -/
def greenSoap : Product :=
  { id := 2, title := "Green Soap", slug := "green-soap-loyw3uoc", description := none,
    price := 500, image_path := none, category_id := some 2,
    created_at := "2023-11-14 22:13:19" }

/-- A concrete store: one user, two categories, two products. -/
def exampleDb : Db :=
  { users := [{ id := 1, username := "admin", password_hash := "hash:secret" }],
    categories := [{ id := 1, name := "Maison", slug := "maison" },
                   { id := 2, name := "Beauté", slug := "beaute" }],
    products := [blueVase, greenSoap],
    productSeq := 2 }

/-- The arguments of the spec's example `create_product("Red Lamp", price=1500)`. -/
def redLamp : ProductArgs :=
  { title := some "Red Lamp", description := none, price := some 1500, image_path := none,
    category_id := none }

/-- The row `createProduct` inserts for `redLamp` in `exampleDb` at `exampleClock`. -/
def redLampRow : Product :=
  { id := 3, title := "Red Lamp", slug := "red-lamp-loyw3v28", description := none,
    price := 1500, image_path := none, category_id := none,
    created_at := "2023-11-14 22:13:20" }

/-- The store after `createProduct` of `redLamp` in `exampleDb` at `exampleClock`. -/
def exampleDbWithRedLamp : Db :=
  { exampleDb with products := [blueVase, greenSoap, redLampRow], productSeq := 3 }

/-- A filter without text query and category, with the default window. -/
def noFilter : Filter :=
  { q := none, categorySlug := none, limit := none, offset := none }

/-- A request of a logged-in administrator that carries no body field and no file. -/
def adminRequest : Request :=
  { sessionUser := some { id := 1, username := "admin" }, username := none, password := none,
    title := none, description := none, price := none, category_slug := none, file := none }

/-- A request without a session user that carries no body field and no file. -/
def anonymousRequest : Request :=
  { adminRequest with sessionUser := none }

/-- Value of one base-36 digit character. -/
def ofDigit36 (c : Char) : Nat :=
  if c.toNat < 58 then c.toNat - 48 else c.toNat - 87

/-- Value of a base-36 numeral read after the prefix value `init`. -/
def ofDigits36 (init : Nat) (cs : List Char) : Nat :=
  cs.foldl (fun acc c => 36 * acc + ofDigit36 c) init

/-! ## Count and list agree; pagination -/

/-- With distinct category ids (the primary key), at most one category matches a product. -/
theorem filter_categories_length_le_one (cs : List Category) (cid : Option Nat)
    (h : (cs.map Category.id).Nodup) :
    (cs.filter fun c => cid == some c.id).length ≤ 1 := by
  induction cs with
  | nil => simp
  | cons c cs ih =>
    rw [List.map_cons, List.nodup_cons] at h
    by_cases hc : (cid == some c.id) = true
    · have hnone : (cs.filter fun c => cid == some c.id) = [] := by
        rw [List.filter_eq_nil_iff]
        intro d hd hd'
        have h1 : cid = some c.id := by simpa using hc
        have h2 : cid = some d.id := by simpa using hd'
        have : c.id = d.id := by rw [h1] at h2; exact Option.some.inj h2
        exact h.1 (this ▸ List.mem_map_of_mem Category.id hd)
      simp [List.filter_cons, hc, hnone]
    · simp only [List.filter_cons, hc]
      exact ih h.2

/-- With distinct category ids the join has exactly one row per product. -/
theorem leftJoinCategories_length (db : Db) (h : (db.categories.map Category.id).Nodup) :
    (leftJoinCategories db).length = db.products.length := by
  unfold leftJoinCategories
  induction db.products with
  | nil => simp
  | cons p ps ih =>
    rw [List.flatMap_cons, List.length_append, ih, List.length_cons]
    have hle := filter_categories_length_le_one db.categories p.category_id h
    split
    · simp; omega
    · next c cs heq =>
      rw [heq] at hle
      simp at hle
      simp [hle]; omega

/-- The rows `countProducts` counts are the rows `listProducts` sorts and windows. -/
theorem listProducts_length_le_count (db : Db) (f : Filter) :
    (listProducts db f).length ≤ countProducts db f := by
  unfold listProducts countProducts limitOffset orderByCreatedAtDesc
  simp only [List.length_map]
  split
  · simp only [List.length_drop, List.length_insertionSort]; omega
  · simp only [List.length_take, List.length_drop, List.length_insertionSort]; omega

/-- The window `LIMIT n OFFSET 0` with `n` at least the number of rows keeps every row. -/
theorem limitOffset_all {α : Type} (rows : List α) (n : Int) (h : (rows.length : Int) ≤ n) :
    limitOffset n 0 rows = rows := by
  unfold limitOffset
  have hn : ¬ n < 0 := by omega
  simp only [Int.toNat_zero, List.drop_zero, hn, if_false]
  apply List.take_of_length_le
  omega

/-- C1. For every store whose category ids are pairwise distinct (they are the primary key)
and every filter, `countProducts` equals the number of rows `listProducts` returns for the
same text query and category slug with offset 0 and any limit at least the number of
products in the store. -/
theorem countProducts_eq_length_listProducts (db : Db) (f : Filter) (n : Int)
    (hpk : (db.categories.map Category.id).Nodup) (hn : (db.products.length : Int) ≤ n) :
    countProducts db f =
      (listProducts db { f with limit := some n, offset := some 0 }).length := by
  unfold listProducts countProducts
  simp only [Option.getD_some, List.length_map]
  rw [limitOffset_all]
  · simp [orderByCreatedAtDesc]
  · simp only [orderByCreatedAtDesc, List.length_insertionSort]
    exact le_trans (Int.ofNat_le.mpr (le_trans (List.length_filter_le _ _)
      (leftJoinCategories_length db hpk).le)) hn

/-- The `WHERE` terms `listProducts` and `countProducts` assemble hold on a row exactly when
the row matches the filter. -/
theorem where_terms_eq_matchesFilter (f : Filter) (r : Product × Option Category) :
    (if jsTruthy f.categorySlug = true then
        (if jsTruthy f.q = true then
            ([] : List Cond) ++ [Cond.titleLike ("%" ++ f.q.getD "" ++ "%")] else []) ++
          [Cond.categorySlugEq (f.categorySlug.getD "")]
      else
        (if jsTruthy f.q = true then
          ([] : List Cond) ++ [Cond.titleLike ("%" ++ f.q.getD "" ++ "%")] else [])).all
      (Cond.holds r) = matchesFilter f r := by
  unfold matchesFilter
  cases hq : jsTruthy f.q <;> cases hc : jsTruthy f.categorySlug <;>
    cases hr : r.2 <;> simp [Cond.holds, hr]

/-- The order of `ORDER BY p.created_at DESC` is total. -/
theorem createdAtDesc_total : IsTotal (Product × Option Category)
    (fun a b => b.1.created_at.toList ≤ a.1.created_at.toList) :=
  ⟨fun a b => le_total b.1.created_at.toList a.1.created_at.toList⟩

/-- The order of `ORDER BY p.created_at DESC` is transitive. -/
theorem createdAtDesc_trans : IsTrans (Product × Option Category)
    (fun a b => b.1.created_at.toList ≤ a.1.created_at.toList) :=
  ⟨fun _ _ _ hab hbc => le_trans hbc hab⟩

/-- The rows `orderByCreatedAtDesc` returns are in descending order of `created_at`. -/
theorem orderByCreatedAtDesc_sorted (rows : List (Product × Option Category)) :
    (orderByCreatedAtDesc rows).Pairwise
      (fun a b => b.1.created_at.toList ≤ a.1.created_at.toList) := by
  haveI := createdAtDesc_total
  haveI := createdAtDesc_trans
  exact List.sorted_insertionSort
    (fun a b : Product × Option Category => b.1.created_at.toList ≤ a.1.created_at.toList) rows

/-- The rows `orderByCreatedAtDesc` returns are the rows it received. -/
theorem orderByCreatedAtDesc_perm (rows : List (Product × Option Category)) :
    (orderByCreatedAtDesc rows).Perm rows :=
  List.perm_insertionSort _ rows

/-- With offset 0 and a limit covering all matches, `listProducts` returns the sorted rows
that match the filter, all of them. -/
theorem listProducts_full (db : Db) (f : Filter) (n : Int)
    (hn : (countProducts db f : Int) ≤ n) :
    listProducts db { f with limit := some n, offset := some 0 } =
      (orderByCreatedAtDesc ((leftJoinCategories db).filter (matchesFilter f))).map toRow := by
  unfold countProducts at hn
  unfold listProducts
  simp only [Option.getD_some]
  rw [limitOffset_all _ n (by simpa [orderByCreatedAtDesc] using hn)]
  simp only [where_terms_eq_matchesFilter]

/-- C2. For every store, filter, limit `L ≥ 1` and page `k ≥ 1` (with `k * L` and the covering
limit `n` at most 2^53, the range JavaScript numbers hold exactly), `listProducts` with limit
`L` and the offset `(k - 1) * L` of the `/products` handler returns the rows at positions
`[(k-1)*L, k*L)` of the full list, which is `listProducts` with the same text query and
category slug, offset 0 and limit `n`; that full list holds exactly the joined rows that match
the filter, each as often as the join yields it, and is ordered by creation time
descending. -/
theorem listProducts_page_eq_slice (db : Db) (f : Filter) (L k n : Nat)
    (hL : 1 ≤ L) (hk : 1 ≤ k) (hn : countProducts db f ≤ n)
    (hpage : k * L ≤ 2 ^ 53) (hlimit : n ≤ 2 ^ 53) :
    listProducts db { f with limit := some (L : Int), offset := some (pageOffset k L) } =
      ((listProducts db { f with limit := some (n : Int), offset := some 0 }).drop
        ((k - 1) * L)).take L ∧
    (listProducts db { f with limit := some (n : Int), offset := some 0 }).Perm
      (((leftJoinCategories db).filter (matchesFilter f)).map toRow) ∧
    (listProducts db { f with limit := some (n : Int), offset := some 0 }).Pairwise
      (fun earlier later =>
        later.product.created_at.toList ≤ earlier.product.created_at.toList) := by
  have hfull := listProducts_full db f (n : Int) (by exact_mod_cast hn)
  have hrange : (k - 1) * L ≤ 2 ^ 53 ∧ n ≤ 2 ^ 53 :=
    ⟨le_trans (Nat.mul_le_mul_right L (Nat.sub_le k 1)) hpage, hlimit⟩
  refine ⟨?_, ?_, ?_⟩
  · rw [hfull]
    unfold listProducts
    simp only [Option.getD_some, where_terms_eq_matchesFilter]
    have hoff : (pageOffset k L).toNat = (k - 1) * L := by
      unfold pageOffset
      obtain ⟨j, rfl⟩ : ∃ j, k = j + 1 := ⟨k - 1, by omega⟩
      have : ((j + 1 : Nat) : Int) - 1 = (j : Int) := by push_cast; ring
      rw [this, ← Int.natCast_mul, Int.toNat_natCast]
      simp
    have hlim : ¬ ((L : Int) < 0) := by omega
    simp only [limitOffset, hoff, hlim, if_false, Int.toNat_natCast, List.map_take,
      List.map_drop]
  · rw [hfull]
    exact (orderByCreatedAtDesc_perm _).map toRow
  · rw [hfull, List.pairwise_map]
    exact orderByCreatedAtDesc_sorted _

/-! ## What `LIKE '%q%'` matches -/

/-- A pattern of plain characters followed by `%` matches the texts that start with the
pattern, up to ASCII case. -/
theorem likeMatch_plain_percent (q s : List Char) (hq : ∀ c ∈ q, c ≠ '%' ∧ c ≠ '_') :
    likeMatch (q ++ ['%']) s = true ↔ q.map asciiLower <+: s.map asciiLower := by
  induction q generalizing s with
  | nil =>
    simp only [List.nil_append, likeMatch, if_true, List.map_nil, List.nil_prefix, iff_true]
    rw [List.any_eq_true]
    exact ⟨[], by simp, rfl⟩
  | cons c q ih =>
    have hc := hq c (List.mem_cons_self _ _)
    have hq' : ∀ d ∈ q, d ≠ '%' ∧ d ≠ '_' := fun d hd => hq d (List.mem_cons_of_mem _ hd)
    cases s with
    | nil => simp [likeMatch, hc.1]
    | cons d s =>
      simp only [List.cons_append, likeMatch, hc.1, if_false, List.map_cons,
        List.cons_prefix_cons, Bool.and_eq_true, Bool.or_eq_true, beq_iff_eq, hc.2, false_or]
      have := ih s hq'
      simp only [List.append_eq] at this ⊢
      rw [this]

/-- The suffixes of a mapped list are the mapped suffixes. -/
theorem suffix_map_iff {α β : Type} (f : α → β) (u : List β) (t : List α) :
    u <:+ t.map f ↔ ∃ s, s <:+ t ∧ s.map f = u := by
  constructor
  · rintro ⟨v, hv⟩
    obtain ⟨l₁, l₂, rfl, -, h2⟩ := List.map_eq_append_iff.mp hv.symm
    exact ⟨l₂, List.suffix_append _ _, h2⟩
  · rintro ⟨s, hs, rfl⟩
    exact hs.map f

/-- For a text query `q` without `%` and `_`, the filter `p.title LIKE '%q%'` of `listProducts`
and `countProducts` holds exactly when the title contains `q` up to ASCII case. -/
theorem sqlLike_iff_contains (title q : String)
    (hq : ∀ c ∈ q.toList, c ≠ '%' ∧ c ≠ '_') :
    sqlLike title ("%" ++ q ++ "%") = true ↔
      q.toList.map asciiLower <:+: title.toList.map asciiLower := by
  have hpat : ("%" ++ q ++ "%").toList = '%' :: (q.toList ++ ['%']) := by
    simp [String.toList, String.data_append]
  unfold sqlLike
  rw [hpat]
  simp only [likeMatch, if_true, List.any_eq_true, List.mem_tails]
  rw [List.infix_iff_prefix_suffix]
  constructor
  · rintro ⟨s, hs, hm⟩
    exact ⟨s.map asciiLower, (likeMatch_plain_percent _ _ hq).mp hm, hs.map asciiLower⟩
  · rintro ⟨u, hpre, hsuf⟩
    obtain ⟨s, hs, rfl⟩ := (suffix_map_iff asciiLower u title.toList).mp hsuf
    exact ⟨s, hs, (likeMatch_plain_percent _ _ hq).mpr hpre⟩

/-! ## Slugs and their clock token -/

theorem ofDigit36_digit36 (d : Nat) (h : d < 36) : ofDigit36 (digit36 d) = d := by
  revert d
  decide

theorem digit36_ne_hyphen (d : Nat) (h : d < 36) : digit36 d ≠ '-' := by
  revert d
  decide

theorem ofDigits36_toDigits36 (fuel n : Nat) (acc : List Char) (h : n < fuel) :
    ofDigits36 0 (toDigits36 fuel n acc) = ofDigits36 n acc := by
  induction fuel generalizing n acc with
  | zero => omega
  | succ fuel ih =>
    unfold toDigits36
    have hmod : n % 36 < 36 := Nat.mod_lt _ (by omega)
    split
    · next hz =>
      have hd := ofDigit36_digit36 _ hmod
      have hn : n % 36 = n := by omega
      simp only [ofDigits36, List.foldl_cons, hd]
      simp [hn]
    · next hz =>
      rw [ih (n / 36) _ (by omega)]
      have hd := ofDigit36_digit36 _ hmod
      have : 36 * (n / 36) + n % 36 = n := Nat.div_add_mod n 36
      simp only [ofDigits36, List.foldl_cons, hd, this]

theorem toString36_injective (m n : Nat) (h : toString36 m = toString36 n) : m = n := by
  unfold toString36 at h
  have hl : toDigits36 (m + 1) m [] = toDigits36 (n + 1) n [] := by
    injection h
  have hm := ofDigits36_toDigits36 (m + 1) m [] (by omega)
  have hn := ofDigits36_toDigits36 (n + 1) n [] (by omega)
  rw [hl, hn] at hm
  simpa [ofDigits36] using hm.symm

theorem toDigits36_no_hyphen (fuel n : Nat) (acc : List Char) (hacc : '-' ∉ acc) :
    '-' ∉ toDigits36 fuel n acc := by
  induction fuel generalizing n acc with
  | zero => simpa [toDigits36] using hacc
  | succ fuel ih =>
    unfold toDigits36
    have hmod : n % 36 < 36 := Nat.mod_lt _ (by omega)
    have hcons : '-' ∉ digit36 (n % 36) :: acc := by
      intro hmem
      rcases List.mem_cons.mp hmem with h | h
      · exact digit36_ne_hyphen _ hmod h.symm
      · exact hacc h
    split
    · exact hcons
    · exact ih _ _ hcons

theorem toString36_no_hyphen (n : Nat) : '-' ∉ (toString36 n).toList := by
  unfold toString36
  exact toDigits36_no_hyphen _ _ _ (by simp)

/-- A string ending in `-` and a hyphen-free token determines the token. -/
theorem token_eq_of_append_eq (a b x y : List Char) (hx : '-' ∉ x) (hy : '-' ∉ y)
    (h : a ++ '-' :: x = b ++ '-' :: y) : x = y := by
  rcases List.append_eq_append_iff.mp h with ⟨a', _, h2⟩ | ⟨c', _, h2⟩
  · cases a' with
    | nil => simpa using h2
    | cons d a' =>
      simp only [List.cons_append, List.cons.injEq] at h2
      exact absurd (h2.2 ▸ by simp) hx
  · cases c' with
    | nil => simpa using h2.symm
    | cons d c' =>
      simp only [List.cons_append, List.cons.injEq] at h2
      exact absurd (h2.2 ▸ by simp) hy

theorem slug_token_injective (s t : String) (m n : Nat)
    (h : s ++ "-" ++ toString36 m = t ++ "-" ++ toString36 n) : m = n := by
  apply toString36_injective
  have h' := congrArg String.toList h
  simp only [String.toList, String.data_append] at h'
  have h'' : s.data ++ '-' :: (toString36 m).data = t.data ++ '-' :: (toString36 n).data := by
    simpa using h'
  have := token_eq_of_append_eq _ _ _ _ (toString36_no_hyphen m) (toString36_no_hyphen n) h''
  exact String.ext this

/-! ## `createProduct` -/

/-- Inversion of a successful `createProduct`: the title and price were given, the slug is the
slugified title, a hyphen and the base-36 clock, no product had that slug, the foreign key
held, and the new row is appended. -/
theorem createProduct_ok (env : Env) (clock : Clock) (db db' : Db) (a : ProductArgs) (s : String)
    (h : createProduct env clock db a = .ok (db', s)) :
    ∃ title price, a.title = some title ∧ a.price = some price ∧
      s = env.slugify title ++ "-" ++ toString36 clock.now ∧
      db.products.any (fun p => p.slug == s) = false ∧
      foreignKeyOk env db (orNull a.category_id) = true ∧
      db' = { db with
        products := db.products ++
          [{ id := nextProductId db, title := title, slug := s, description := a.description,
             price := price, image_path := a.image_path, category_id := orNull a.category_id,
             created_at := clock.timestamp }],
        productSeq := nextProductId db } := by
  cases ht : a.title with
  | none => simp [createProduct, ht] at h
  | some title =>
    cases hp : a.price with
    | none => simp [createProduct, ht, hp] at h
    | some price =>
      simp only [createProduct, ht, hp] at h
      split at h
      · exact absurd h (by simp)
      · next hany =>
        split at h
        · exact absurd h (by simp)
        · next hfk =>
          simp only [Except.ok.injEq, Prod.mk.injEq] at h
          obtain ⟨hdb, hs⟩ := h
          subst hs
          exact ⟨title, price, rfl, rfl, rfl, by simpa using hany, by simpa using hfk, hdb.symm⟩

/-- A `createProduct` whose title and price are given, whose slug is free and whose category
passes the foreign key succeeds. -/
theorem createProduct_succeeds (env : Env) (clock : Clock) (db : Db) (a : ProductArgs)
    (title : String) (price : Int) (ht : a.title = some title) (hp : a.price = some price)
    (hfree : db.products.any
      (fun p => p.slug == env.slugify title ++ "-" ++ toString36 clock.now) = false)
    (hfk : foreignKeyOk env db (orNull a.category_id) = true) :
    ∃ db', createProduct env clock db a =
      .ok (db', env.slugify title ++ "-" ++ toString36 clock.now) := by
  unfold createProduct
  simp [ht, hp, hfree, hfk]

/-- C3 (amended). After a successful `createProduct`, a second `createProduct` with the same
title (a) is rejected by the `UNIQUE` constraint on `products.slug` when `Date.now()` returns
the same millisecond, (b) whenever it succeeds returns a slug different from the first, which
needs a different clock value, and (c) does succeed, with a different slug, when the clock
value differs, the price is given, the category passes the foreign key and no older product
holds the new slug. -/
theorem createProduct_same_title_twice (env : Env) (c1 c2 : Clock) (db db1 : Db)
    (a1 a2 : ProductArgs) (s1 : String) (hsame : a2.title = a1.title)
    (h1 : createProduct env c1 db a1 = .ok (db1, s1)) :
    (c2.now = c1.now → a2.price ≠ none →
      createProduct env c2 db1 a2 = .error (.uniqueFailed "products.slug")) ∧
    (∀ db2 s2, createProduct env c2 db1 a2 = .ok (db2, s2) → s2 ≠ s1 ∧ c2.now ≠ c1.now) ∧
    (c2.now ≠ c1.now → a2.price ≠ none →
      foreignKeyOk env db (orNull a2.category_id) = true →
      (∀ title, a2.title = some title → db.products.any
        (fun p => p.slug == env.slugify title ++ "-" ++ toString36 c2.now) = false) →
      ∃ db2 s2, createProduct env c2 db1 a2 = .ok (db2, s2) ∧ s2 ≠ s1) := by
  obtain ⟨title, price, ht, -, hs1, -, -, hdb1⟩ := createProduct_ok env c1 db db1 a1 s1 h1
  have ht2 : a2.title = some title := hsame.trans ht
  have hmem : (db1.products.any fun p => p.slug == s1) = true := by
    rw [hdb1]
    simp
  have hb : ∀ db2 s2, createProduct env c2 db1 a2 = .ok (db2, s2) → s2 ≠ s1 ∧ c2.now ≠ c1.now := by
    intro db2 s2 h2
    obtain ⟨title2, -, ht2', -, hs2, hfree, -, -⟩ := createProduct_ok env c2 db1 db2 a2 s2 h2
    have hne : s2 ≠ s1 := by
      intro h
      rw [h, hmem] at hfree
      exact absurd hfree (by simp)
    refine ⟨hne, fun hnow => hne ?_⟩
    have : title2 = title := Option.some.inj (ht2'.symm.trans ht2)
    rw [hs1, hs2, this, hnow]
  refine ⟨?_, hb, ?_⟩
  · intro hnow hprice
    obtain ⟨price2, hp2⟩ := Option.ne_none_iff_exists'.mp hprice
    have hs : env.slugify title ++ "-" ++ toString36 c2.now = s1 := by rw [hs1, hnow]
    simp only [createProduct, ht2, hp2, hs, hmem, if_true]
  · intro hnow hprice hfk hfree
    obtain ⟨price2, hp2⟩ := Option.ne_none_iff_exists'.mp hprice
    have hne : env.slugify title ++ "-" ++ toString36 c2.now ≠ s1 := by
      rw [hs1]
      exact fun h => hnow (slug_token_injective _ _ _ _ h)
    have hfree1 : db1.products.any
        (fun p => p.slug == env.slugify title ++ "-" ++ toString36 c2.now) = false := by
      have := hfree title ht2
      rw [hdb1]
      simp only [List.any_append, this, List.any_cons, List.any_nil, Bool.or_false,
        Bool.false_or]
      simpa using fun h => hne h.symm
    have hfk1 : foreignKeyOk env db1 (orNull a2.category_id) = true := by
      rw [hdb1]
      exact hfk
    obtain ⟨db2, h2⟩ := createProduct_succeeds env c2 db1 a2 title price2 ht2 hp2 hfree1 hfk1
    exact ⟨db2, _, h2, hne⟩

/-- Every joined row carries a product of the store. -/
theorem mem_leftJoinCategories (db : Db) (r : Product × Option Category)
    (h : r ∈ leftJoinCategories db) : r.1 ∈ db.products := by
  unfold leftJoinCategories at h
  rw [List.mem_flatMap] at h
  obtain ⟨p, hp, hr⟩ := h
  split at hr
  · simp only [List.mem_singleton] at hr
    rw [hr]; exact hp
  · rw [List.mem_map] at hr
    obtain ⟨c, -, hc⟩ := hr
    rw [← hc]; exact hp

/-- The join of a store with one more product is the old join followed by the rows of the
new product. -/
theorem leftJoinCategories_append (db : Db) (row : Product) (seq : Nat) :
    leftJoinCategories { db with products := db.products ++ [row], productSeq := seq } =
      leftJoinCategories db ++
        (match db.categories.filter (fun c => row.category_id == some c.id) with
          | [] => [(row, none)]
          | c :: cs => (c :: cs).map fun c => (row, some c)) := by
  simp [leftJoinCategories, List.flatMap_append]

/-- Among the joined rows of one product, the first one found by that product's slug carries
the product, with no category when the product has no category id. -/
theorem find_joined_rows (cats : List Category) (row : Product) :
    ∃ oc, (match cats.filter (fun (c : Category) => row.category_id == some c.id) with
        | [] => [(row, (none : Option Category))]
        | c :: cs => (c :: cs).map fun c => (row, some c)).find?
          (fun r => r.1.slug == row.slug) = some (row, oc) ∧
      (row.category_id = none → oc = none) := by
  split
  · exact ⟨none, by simp, fun _ => rfl⟩
  · next c cs heq =>
    refine ⟨some c, by simp, fun hnone => ?_⟩
    have hc : c ∈ cats.filter (fun c => row.category_id == some c.id) := by
      rw [heq]; exact List.mem_cons_self _ _
    rw [List.mem_filter, hnone] at hc
    exact absurd hc.2 (by simp)

/-- C10. When `createProduct` succeeds and returns slug `s`, the title and price were given,
`s` is the slugified title followed by `-` and the base-36 clock token, and
`getProductBySlug s` on the resulting store returns the row just inserted: it has that slug,
title and price, a fresh id, and a null category when no category was supplied. -/
theorem createProduct_getProductBySlug (env : Env) (clock : Clock) (db db' : Db)
    (a : ProductArgs) (s : String) (h : createProduct env clock db a = .ok (db', s)) :
    ∃ title price row, a.title = some title ∧ a.price = some price ∧
      s = env.slugify title ++ "-" ++ toString36 clock.now ∧
      getProductBySlug db' s = some row ∧
      row.product =
        { id := nextProductId db, title := title, slug := s, description := a.description,
          price := price, image_path := a.image_path, category_id := orNull a.category_id,
          created_at := clock.timestamp } ∧
      row.product ∉ db.products ∧
      (a.category_id = none → row.product.category_id = none ∧ row.category_name = none ∧
        row.category_slug = none) := by
  obtain ⟨title, price, ht, hp, hs, hfree, -, hdb'⟩ := createProduct_ok env clock db db' a s h
  have hold : (leftJoinCategories db).find? (fun r => r.1.slug == s) = none := by
    rw [List.find?_eq_none]
    intro r hr
    have hmem := mem_leftJoinCategories db r hr
    rw [List.any_eq_false] at hfree
    exact hfree r.1 hmem
  have hnotin : ∀ p : Product, p.slug = s → p ∉ db.products := by
    intro p hps hmem
    rw [List.any_eq_false] at hfree
    exact hfree p hmem (by simpa using hps)
  obtain ⟨oc, hfind, hoc⟩ := find_joined_rows db.categories
    { id := nextProductId db, title := title, slug := s, description := a.description,
      price := price, image_path := a.image_path, category_id := orNull a.category_id,
      created_at := clock.timestamp }
  refine ⟨title, price, toRow (_, oc), ht, hp, hs, ?_, rfl, hnotin _ rfl, ?_⟩
  · rw [hdb']
    unfold getProductBySlug
    rw [leftJoinCategories_append, List.find?_append, hold, Option.none_or, hfind]
    rfl
  · intro hcat
    have := hoc (by simp [hcat, orNull])
    simp [toRow, this, hcat, orNull]

/-! ## `updateProduct` -/

/-- Inversion of an `updateProduct` that returns on an existing product: the title and price
were given, the slug is the stored one for an unchanged title and a regenerated one
otherwise, and exactly the rows with the given id are rewritten. -/
theorem updateProduct_ok (env : Env) (clock : Clock) (db db' : Db) (id : Nat) (a : ProductArgs)
    (product : Product) (r : Option String) (hp : productById db id = some product)
    (h : updateProduct env clock db id a = .ok (db', r)) :
    ∃ title price slug, a.title = some title ∧ a.price = some price ∧ r = some slug ∧
      slug = (if title = product.title then product.slug
        else env.slugify title ++ "-" ++ toString36 clock.now) ∧
      db' = { db with products := db.products.map fun p =>
        if p.id == id then
          { p with title := title, slug := slug, description := a.description, price := price,
                   image_path := jsOr a.image_path product.image_path,
                   category_id := orNull a.category_id }
        else p } := by
  cases ht : a.title with
  | none => simp [updateProduct, hp, ht] at h
  | some title =>
    cases hpr : a.price with
    | none =>
      by_cases hsame : title = product.title <;> simp [updateProduct, hp, ht, hpr, hsame] at h
    | some price =>
      by_cases hsame : title = product.title
      · simp only [updateProduct, hp, ht, hpr, hsame, ne_eq, not_true_eq_false, if_false] at h
        split at h
        · exact absurd h (by simp)
        · split at h
          · exact absurd h (by simp)
          · simp only [Except.ok.injEq, Prod.mk.injEq] at h
            refine ⟨title, price, product.slug, rfl, rfl, h.2.symm, by simp [hsame], ?_⟩
            rw [← h.1, hsame]
      · have hne : ¬ (some title = some product.title) := fun h => hsame (Option.some.inj h)
        simp only [updateProduct, hp, ht, hpr, hne, ne_eq, not_false_eq_true, if_true] at h
        split at h
        · exact absurd h (by simp)
        · split at h
          · exact absurd h (by simp)
          · simp only [Except.ok.injEq, Prod.mk.injEq] at h
            refine ⟨title, price, _, rfl, rfl, h.2.symm, by simp [hsame], ?_⟩
            rw [← h.1]

/-- Rewriting rows without touching their ids rewrites the row a lookup by id finds. -/
theorem productById_map (db : Db) (id : Nat) (f : Product → Product)
    (hid : ∀ p, (f p).id = p.id) :
    productById { db with products := db.products.map f } id = (productById db id).map f := by
  unfold productById
  simp only [List.find?_map]
  congr 1
  congr 1
  funext p
  simp [hid]

/-- C5 (amended). When `updateProduct` returns on an existing product, the slug it returns is
the slug stored for that id afterwards; it is the prior slug when the new title equals the
stored title; when the title differs it is the slugified new title, `-` and the base-36 clock
token, which differs from the prior slug whenever the prior slug ends in the token of another
clock value. -/
theorem updateProduct_slug (env : Env) (clock : Clock) (db db' : Db) (id : Nat)
    (a : ProductArgs) (product : Product) (r : Option String)
    (hp : productById db id = some product)
    (h : updateProduct env clock db id a = .ok (db', r)) :
    ∃ title s p', a.title = some title ∧ r = some s ∧
      productById db' id = some p' ∧ p'.slug = s ∧
      (title = product.title → s = product.slug) ∧
      (title ≠ product.title →
        s = env.slugify title ++ "-" ++ toString36 clock.now ∧
        ∀ (stem : String) (c0 : Nat), product.slug = stem ++ "-" ++ toString36 c0 →
          c0 ≠ clock.now → s ≠ product.slug) := by
  obtain ⟨title, price, slug, ht, -, hr, hslug, hdb'⟩ :=
    updateProduct_ok env clock db db' id a product r hp h
  have hfind := productById_map db id (fun p =>
    if p.id == id then
      { p with title := title, slug := slug, description := a.description, price := price,
               image_path := jsOr a.image_path product.image_path,
               category_id := orNull a.category_id }
    else p) (by intro p; dsimp only; split <;> rfl)
  rw [← hdb', hp, Option.map_some'] at hfind
  have hid : product.id = id := by
    have := List.find?_some hp
    simpa using this
  refine ⟨title, slug, _, ht, hr, hfind, by simp [hid], ?_, ?_⟩
  · intro hsame
    simp [hslug, hsame]
  · intro hne
    have hs : slug = env.slugify title ++ "-" ++ toString36 clock.now := by simp [hslug, hne]
    refine ⟨hs, fun stem c0 hprior hc0 heq => hc0 ?_⟩
    rw [hs, hprior] at heq
    exact (slug_token_injective _ _ _ _ heq).symm

/-- C6. For every existing product and every `updateProduct` on it with no image path
supplied, the call either throws, leaving the store as it was, or returns a slug and the
product stored under that id has the image path it had before. -/
theorem updateProduct_keeps_image_path (env : Env) (clock : Clock) (db : Db) (id : Nat)
    (a : ProductArgs) (product : Product) (hp : productById db id = some product)
    (himg : a.image_path = none) :
    (∃ e, updateProduct env clock db id a = .error e) ∨
    (∃ db' s p', updateProduct env clock db id a = .ok (db', some s) ∧
      productById db' id = some p' ∧ p'.image_path = product.image_path) := by
  cases h : updateProduct env clock db id a with
  | error e => exact Or.inl ⟨e, rfl⟩
  | ok res =>
    obtain ⟨db', r⟩ := res
    obtain ⟨title, price, slug, -, -, hr, -, hdb'⟩ :=
      updateProduct_ok env clock db db' id a product r hp h
    have hfind := productById_map db id (fun p =>
      if p.id == id then
        { p with title := title, slug := slug, description := a.description, price := price,
                 image_path := jsOr a.image_path product.image_path,
                 category_id := orNull a.category_id }
      else p) (by intro p; dsimp only; split <;> rfl)
    rw [← hdb', hp, Option.map_some'] at hfind
    have hid : product.id = id := by
      have := List.find?_some hp
      simpa using this
    exact Or.inr ⟨db', slug, _, by rw [hr], hfind, by simp [hid, himg, jsOr, jsTruthy]⟩

/-! ## Admin handlers -/

/-- C8. For every admin route other than the two login routes and every request whose
session has no user, the answer is a redirect to `/admin/login`, the store (users, categories
and products) is unchanged and the session still has no user. -/
theorem admin_routes_redirect_anonymous (env : Env) (clock : Clock) (route : AdminRoute)
    (req : Request) (db : Db) (hget : route ≠ .getLogin) (hpost : route ≠ .postLogin)
    (hanon : req.sessionUser = none) :
    (handleAdmin env clock route req db).response = .redirect "/admin/login" ∧
    (handleAdmin env clock route req db).db = db ∧
    (handleAdmin env clock route req db).sessionUser = none := by
  cases route <;>
    simp_all [handleAdmin, getLogout, getDashboard, getNewProduct, postNewProduct,
      getEditProduct, postEditProduct, postDeleteProduct, ensureAuth]

/-- The lookup of `POST /admin/login` finds no row for a username no user has. -/
theorem find_user_none (db : Db) (username : Option String)
    (h : ∀ u ∈ db.users, some u.username ≠ username) :
    (db.users.find? fun u => some u.username == username) = none := by
  rw [List.find?_eq_none]
  intro u hu
  simpa using h u hu

/-- When the password is a supplied string: a `POST /admin/login` with the username of an
existing user and a password `bcrypt.compareSync` rejects, and one with a username no user
has, sent from the same session state, get the same response, the login view with the error
`Identifiants invalides`; neither changes the session user or the store. -/
theorem login_failures_same_response (env : Env) (db : Db) (req1 req2 : Request)
    (password : String) (hsession : req1.sessionUser = req2.sessionUser)
    (hexists : ∃ u ∈ db.users, some u.username = req1.username)
    (hpassword : req1.password = some password)
    (hwrong : ∀ u ∈ db.users, some u.username = req1.username →
      env.compareSync password u.password_hash = false)
    (hunknown : ∀ u ∈ db.users, some u.username ≠ req2.username) :
    (postLogin env req1 db).response = (postLogin env req2 db).response ∧
    (postLogin env req2 db).response =
      .render "admin/login" req2.sessionUser.isSome
        { Locals.empty with error := some "Identifiants invalides" } ∧
    (postLogin env req1 db).sessionUser = req1.sessionUser ∧
    (postLogin env req2 db).sessionUser = req2.sessionUser ∧
    (postLogin env req1 db).db = db ∧ (postLogin env req2 db).db = db := by
  have h2 := find_user_none db req2.username hunknown
  obtain ⟨u0, hu0, hname0⟩ := hexists
  cases h1 : db.users.find? (fun u => some u.username == req1.username) with
  | none =>
    rw [List.find?_eq_none] at h1
    exact absurd (by simpa using hname0) (h1 u0 hu0)
  | some u =>
    have hmem := List.mem_of_find?_eq_some h1
    have hname : some u.username = req1.username := by
      have := List.find?_some h1
      simpa using this
    have hcmp := hwrong u hmem hname
    simp [postLogin, h1, h2, hpassword, hcmp, hsession]

/-- C4 (amended). `POST /admin/products/new` changes the store only for an authenticated
request whose title and price are both non-empty and whose price text `parseInt(price, 10)`
turns into an integer `n`, of either sign; the change is one appended row with that title and,
for `|n| ≤ 2^53`, the price `n`. An authenticated request with a missing or empty title or
price is answered by the form with the error `Titre et prix requis`, one with a non-numeric
price by the form with the `NOT NULL` error of the insert, and neither changes the store. -/
theorem postNewProduct_validation (env : Env) (clock : Clock) (req : Request) (db : Db) :
    ((postNewProduct env clock req db).db ≠ db →
      req.sessionUser.isSome = true ∧ jsTruthy req.title = true ∧ jsTruthy req.price = true ∧
      ∃ n row, parseInt10 (req.price.getD "") = some n ∧
        (postNewProduct env clock req db).db.products = db.products ++ [row] ∧
        some row.title = req.title ∧ (n.natAbs ≤ 2 ^ 53 → row.price = n)) ∧
    (req.sessionUser.isSome = true → jsTruthy req.title = false ∨ jsTruthy req.price = false →
      (postNewProduct env clock req db).db = db ∧
      (postNewProduct env clock req db).response = .render "admin/new-product" true
        { Locals.empty with categories := getCategories db,
                            error := some "Titre et prix requis" }) ∧
    (req.sessionUser.isSome = true → jsTruthy req.title = true → jsTruthy req.price = true →
      parseInt10 (req.price.getD "") = none →
      (postNewProduct env clock req db).db = db ∧
      (postNewProduct env clock req db).response = .render "admin/new-product" true
        { Locals.empty with categories := getCategories db,
                            error := some "NOT NULL constraint failed: products.price" }) := by
  refine ⟨?_, ?_, ?_⟩
  · intro hchange
    by_cases hauth : req.sessionUser.isSome = true
    · by_cases htp : (!jsTruthy req.title || !jsTruthy req.price) = true
      · exact absurd (by simp [postNewProduct, ensureAuth, hauth, postNewProductTry, htp]) hchange
      · cases hc : createProduct env clock db
            { title := req.title, description := req.description,
              price := parseInt10 (req.price.getD ""),
              image_path := req.file.map fun filename => "/uploads/" ++ filename,
              category_id := categoryIdOf db req.category_slug } with
        | error e =>
          exact absurd (by simp [postNewProduct, ensureAuth, hauth, postNewProductTry, htp, hc])
            hchange
        | ok res =>
          obtain ⟨db', s⟩ := res
          obtain ⟨title, price, ht, hp, -, -, -, hdb'⟩ := createProduct_ok env clock db db' _ s hc
          have hout : (postNewProduct env clock req db).db = db' := by
            simp [postNewProduct, ensureAuth, hauth, postNewProductTry, htp, hc]
          simp only [Bool.or_eq_true, Bool.not_eq_true', not_or, Bool.not_eq_false] at htp
          refine ⟨hauth, htp.1, htp.2, price,
            { id := nextProductId db, title := title, slug := s, description := req.description,
              price := price, image_path := req.file.map fun filename => "/uploads/" ++ filename,
              category_id := orNull (categoryIdOf db req.category_slug),
              created_at := clock.timestamp }, hp, ?_, ht.symm, fun _ => rfl⟩
          rw [hout, hdb']
    · exact absurd (by simp [postNewProduct, ensureAuth, hauth]) hchange
  · intro hauth htp
    have htp' : (!jsTruthy req.title || !jsTruthy req.price) = true := by
      rcases htp with h | h <;> simp [h]
    simp [postNewProduct, ensureAuth, hauth, postNewProductTry, htp', Err.text]
  · intro hauth ht hp hnan
    have htitle : ∃ title, req.title = some title := by
      cases h : req.title with
      | none => simp [h, jsTruthy] at ht
      | some title => exact ⟨title, rfl⟩
    obtain ⟨title, htitle⟩ := htitle
    rw [htitle] at ht
    simp [postNewProduct, ensureAuth, hauth, postNewProductTry, ht, hp, createProduct, hnan,
      htitle, Err.text]

/-- The edit form submitted without a file leaves the image path stored under the edited id
as it was, whatever the session, the fields and the outcome of the update. -/
theorem postEditProduct_without_file (env : Env) (clock : Clock) (id : Nat) (req : Request)
    (db : Db) (hfile : req.file = none) :
    (productById (postEditProduct env clock id req db).db id).map Product.image_path =
      (productById db id).map Product.image_path := by
  by_cases hauth : req.sessionUser.isSome = true
  · cases hu : updateProduct env clock db id
        { title := req.title, description := req.description,
          price := match req.price with
            | some price => parseInt10 price
            | none => none,
          image_path := req.file.map fun filename => "/uploads/" ++ filename,
          category_id := categoryIdOf db req.category_slug } with
    | error e => simp [postEditProduct, ensureAuth, hauth, postEditProductTry, hu]
    | ok res =>
      obtain ⟨db', r⟩ := res
      have hout : (postEditProduct env clock id req db).db = db' := by
        simp only [postEditProduct, ensureAuth, hauth, postEditProductTry, hu, if_true]
        by_cases hr : (!jsTruthy r) = true <;> simp [hr]
      rw [hout]
      cases hp : productById db id with
      | none =>
        simp only [updateProduct, hp, Except.ok.injEq, Prod.mk.injEq] at hu
        rw [← hu.1, hp]
      | some product =>
        obtain ⟨title, price, slug, -, -, -, -, hdb'⟩ :=
          updateProduct_ok env clock db db' id _ product r hp hu
        have hid : product.id = id := by
          have := List.find?_some hp
          simpa using this
        rw [hdb', productById_map db id _ (by intro p; dsimp only; split <;> rfl), hp]
        simp [hid, hfile, jsOr, jsTruthy]
  · simp [postEditProduct, ensureAuth, hauth]

/-! ## Evaluations at concrete inputs -/

/-- Instance of C1: two products, the default filter, limit 24. -/
theorem countProducts_eq_length_listProducts_witness :
    (exampleDb.categories.map Category.id).Nodup ∧ ((exampleDb.products.length : Int) ≤ 24) ∧
    countProducts exampleDb noFilter =
      (listProducts exampleDb { noFilter with limit := some 24, offset := some 0 }).length :=
  ⟨by decide, by decide,
    countProducts_eq_length_listProducts exampleDb noFilter 24 (by decide) (by decide)⟩

/-- Instance of C2: three products, `Red Lamp` the newest; page 2 with one row per page is
`Blue Vase`, the second row of the full list. -/
theorem listProducts_page_eq_slice_witness :
    1 ≤ 1 ∧ 1 ≤ 2 ∧ countProducts exampleDbWithRedLamp noFilter ≤ 24 ∧
    2 * 1 ≤ 2 ^ 53 ∧ 24 ≤ 2 ^ 53 ∧
    (listProducts exampleDbWithRedLamp
        { noFilter with limit := some 24, offset := some 0 }).map (fun r => r.product.title) =
      ["Red Lamp", "Blue Vase", "Green Soap"] ∧
    (listProducts exampleDbWithRedLamp
        { noFilter with limit := some ((1 : Nat) : Int),
                        offset := some (pageOffset (2 : Nat) (1 : Nat)) }).map
        (fun r => r.product.title) = ["Blue Vase"] ∧
    listProducts exampleDbWithRedLamp
        { noFilter with limit := some ((1 : Nat) : Int),
                        offset := some (pageOffset (2 : Nat) (1 : Nat)) } =
      ((listProducts exampleDbWithRedLamp
        { noFilter with limit := some ((24 : Nat) : Int), offset := some 0 }).drop
          ((2 - 1) * 1)).take 1 :=
  ⟨by decide, by decide, by decide, by norm_num, by norm_num, by decide, by decide,
    (listProducts_page_eq_slice exampleDbWithRedLamp noFilter 1 2 24 (by decide) (by decide)
      (by decide) (by norm_num) (by norm_num)).1⟩

/-- C3, counterexample. `Red Lamp` is created at clock 1700000000000 and gets the slug
`red-lamp-loyw3v28`; the second `createProduct` with the same title in the same millisecond
returns no slug: its insert is rejected because the slug it computed is the same. -/
theorem createProduct_same_millisecond_rejected :
    createProduct exampleEnv exampleClock exampleDb redLamp =
      .ok (exampleDbWithRedLamp, "red-lamp-loyw3v28") ∧
    createProduct exampleEnv exampleClock exampleDbWithRedLamp redLamp =
      .error (.uniqueFailed "products.slug") :=
  ⟨rfl, rfl⟩

/-- Instance of C3 (amended): the second call one millisecond later. -/
theorem createProduct_same_title_twice_witness :
    redLamp.title = redLamp.title ∧
    createProduct exampleEnv exampleClock exampleDb redLamp =
      .ok (exampleDbWithRedLamp, "red-lamp-loyw3v28") ∧
    ∃ db2 s2, createProduct exampleEnv laterClock exampleDbWithRedLamp redLamp = .ok (db2, s2) ∧
      s2 ≠ "red-lamp-loyw3v28" :=
  ⟨rfl, rfl,
    (createProduct_same_title_twice exampleEnv exampleClock laterClock exampleDb
      exampleDbWithRedLamp redLamp redLamp "red-lamp-loyw3v28" rfl rfl).2.2
      (by decide) (by decide) (by decide) (by decide)⟩

/-- C4, counterexample. An authenticated submission with title `Lampe` and price `-5` is not
refused: the answer is the redirect to the new product and the store holds a third product
whose price is -5. -/
theorem postNewProduct_accepts_negative_price :
    (postNewProduct exampleEnv exampleClock
      { adminRequest with title := some "Lampe", price := some "-5" } exampleDb).response =
      .redirect "/p/lampe-loyw3v28" ∧
    (postNewProduct exampleEnv exampleClock
      { adminRequest with title := some "Lampe", price := some "-5" } exampleDb).db.products.map
        (fun p => (p.title, p.price)) =
      [("Blue Vase", 900), ("Green Soap", 500), ("Lampe", -5)] :=
  ⟨rfl, rfl⟩

/-- Instance of C4 (amended): the non-numeric price `abc` is refused by the insert. -/
theorem postNewProduct_validation_witness :
    adminRequest.sessionUser.isSome = true ∧ jsTruthy (some "Lampe") = true ∧
    jsTruthy (some "abc") = true ∧ parseInt10 "abc" = none ∧
    (postNewProduct exampleEnv exampleClock
      { adminRequest with title := some "Lampe", price := some "abc" } exampleDb).db = exampleDb ∧
    (postNewProduct exampleEnv exampleClock
      { adminRequest with title := some "Lampe", price := some "abc" } exampleDb).response =
      .render "admin/new-product" true
        { Locals.empty with categories := getCategories exampleDb,
                            error := some "NOT NULL constraint failed: products.price" } :=
  ⟨rfl, rfl, rfl, rfl,
    (postNewProduct_validation exampleEnv exampleClock
      { adminRequest with title := some "Lampe", price := some "abc" } exampleDb).2.2
      rfl rfl rfl rfl⟩

/-- C5, counterexample. `Red Lamp`, created at clock 1700000000000 with slug
`red-lamp-loyw3v28`, is renamed `red lamp` in the same millisecond: the title differs from
the stored one, yet the slug returned and stored is the prior slug. -/
theorem updateProduct_new_title_same_slug :
    createProduct exampleEnv exampleClock exampleDb redLamp =
      .ok (exampleDbWithRedLamp, "red-lamp-loyw3v28") ∧
    productById exampleDbWithRedLamp 3 = some redLampRow ∧
    redLampRow.title ≠ "red lamp" ∧ redLampRow.slug = "red-lamp-loyw3v28" ∧
    updateProduct exampleEnv exampleClock exampleDbWithRedLamp 3
        { redLamp with title := some "red lamp" } =
      .ok ({ exampleDbWithRedLamp with
              products := [blueVase, greenSoap, { redLampRow with title := "red lamp" }] },
            some "red-lamp-loyw3v28") :=
  ⟨rfl, rfl, by decide, rfl, rfl⟩

/-- Instance of C5 (amended): `Blue Vase` renamed one millisecond after `exampleClock`. -/
theorem updateProduct_slug_witness :
    productById exampleDb 1 = some blueVase ∧
    updateProduct exampleEnv laterClock exampleDb 1 { redLamp with title := some "Blue Vase 2" } =
      .ok ({ exampleDb with products :=
              [{ blueVase with title := "Blue Vase 2", slug := "blue-vase-2-loyw3v29",
                               price := 1500, category_id := none }, greenSoap] },
            some "blue-vase-2-loyw3v29") ∧
    ∃ title s p', some "Blue Vase 2" = some title ∧ some "blue-vase-2-loyw3v29" = some s ∧
      productById { exampleDb with products :=
          [{ blueVase with title := "Blue Vase 2", slug := "blue-vase-2-loyw3v29",
                           price := 1500, category_id := none }, greenSoap] } 1 = some p' ∧
      p'.slug = s ∧
      (title = blueVase.title → s = blueVase.slug) ∧
      (title ≠ blueVase.title →
        s = exampleEnv.slugify title ++ "-" ++ toString36 laterClock.now ∧
        ∀ (stem : String) (c0 : Nat), blueVase.slug = stem ++ "-" ++ toString36 c0 →
          c0 ≠ laterClock.now → s ≠ blueVase.slug) :=
  ⟨rfl, rfl,
    updateProduct_slug exampleEnv laterClock exampleDb _ 1 { redLamp with title := some "Blue Vase 2" }
      blueVase _ rfl rfl⟩

/-- Instance of C6: `Blue Vase` updated without an image keeps `/uploads/1699999999990-vase.png`. -/
theorem updateProduct_keeps_image_path_witness :
    productById exampleDb 1 = some blueVase ∧
    ({ redLamp with title := some "Blue Vase 2" } : ProductArgs).image_path = none ∧
    ((∃ e, updateProduct exampleEnv laterClock exampleDb 1
        { redLamp with title := some "Blue Vase 2" } = .error e) ∨
      (∃ db' s p', updateProduct exampleEnv laterClock exampleDb 1
          { redLamp with title := some "Blue Vase 2" } = .ok (db', some s) ∧
        productById db' 1 = some p' ∧ p'.image_path = blueVase.image_path)) :=
  ⟨rfl, rfl,
    updateProduct_keeps_image_path exampleEnv laterClock exampleDb 1
      { redLamp with title := some "Blue Vase 2" } blueVase rfl rfl⟩

/-- C7, failing input. The text query `_` selects both products of `exampleDb`, and
`countProducts` counts both, although neither title contains the character `_`. -/
theorem listProducts_underscore_query :
    (listProducts exampleDb { noFilter with q := some "_" }).map (fun r => r.product.title) =
      ["Blue Vase", "Green Soap"] ∧
    countProducts exampleDb { noFilter with q := some "_" } = 2 ∧
    '_' ∉ "Blue Vase".toList ∧ '_' ∉ "Green Soap".toList :=
  ⟨by decide, by decide, by decide, by decide⟩

/-- Instance of C8: the dashboard requested without a session user. -/
theorem admin_routes_redirect_anonymous_witness :
    AdminRoute.getDashboard ≠ .getLogin ∧ AdminRoute.getDashboard ≠ .postLogin ∧
    anonymousRequest.sessionUser = none ∧
    (handleAdmin exampleEnv exampleClock .getDashboard anonymousRequest exampleDb).response =
      .redirect "/admin/login" ∧
    (handleAdmin exampleEnv exampleClock .getDashboard anonymousRequest exampleDb).db =
      exampleDb ∧
    (handleAdmin exampleEnv exampleClock .getDashboard anonymousRequest exampleDb).sessionUser =
      none :=
  ⟨by decide, by decide, rfl,
    admin_routes_redirect_anonymous exampleEnv exampleClock .getDashboard anonymousRequest
      exampleDb (by decide) (by decide) rfl⟩

/-- The two failed logins at a concrete input: `admin` with the password `wrong`, and the
unknown user `nobody`. -/
theorem login_failures_same_response_witness :
    ({ anonymousRequest with username := some "admin", password := some "wrong" } :
        Request).sessionUser =
      ({ anonymousRequest with username := some "nobody", password := some "secret" } :
        Request).sessionUser ∧
    (∃ u ∈ exampleDb.users, some u.username = some "admin") ∧
    (∀ u ∈ exampleDb.users, some u.username = some "admin" →
      exampleEnv.compareSync "wrong" u.password_hash = false) ∧
    (∀ u ∈ exampleDb.users, some u.username ≠ some "nobody") ∧
    (postLogin exampleEnv
        { anonymousRequest with username := some "admin", password := some "wrong" }
        exampleDb).response =
      (postLogin exampleEnv
        { anonymousRequest with username := some "nobody", password := some "secret" }
        exampleDb).response ∧
    (postLogin exampleEnv
        { anonymousRequest with username := some "admin", password := some "wrong" }
        exampleDb).sessionUser = none :=
  ⟨rfl, by decide, by decide, by decide,
    (login_failures_same_response exampleEnv exampleDb
      { anonymousRequest with username := some "admin", password := some "wrong" }
      { anonymousRequest with username := some "nobody", password := some "secret" }
      "wrong" rfl (by decide) rfl (by decide) (by decide)).1,
    (login_failures_same_response exampleEnv exampleDb
      { anonymousRequest with username := some "admin", password := some "wrong" }
      { anonymousRequest with username := some "nobody", password := some "secret" }
      "wrong" rfl (by decide) rfl (by decide) (by decide)).2.2.1⟩

/-- Instance of C10, the example of the spec: `Red Lamp` at price 1500 gets the slug
`red-lamp-loyw3v28`, and the product found under that slug has price 1500 and no category. -/
theorem createProduct_getProductBySlug_witness :
    createProduct exampleEnv exampleClock exampleDb redLamp =
      .ok (exampleDbWithRedLamp, "red-lamp-loyw3v28") ∧
    getProductBySlug exampleDbWithRedLamp "red-lamp-loyw3v28" =
      some { product := redLampRow, category_name := none, category_slug := none } ∧
    ∃ title price row, redLamp.title = some title ∧ redLamp.price = some price ∧
      "red-lamp-loyw3v28" = exampleEnv.slugify title ++ "-" ++ toString36 exampleClock.now ∧
      getProductBySlug exampleDbWithRedLamp "red-lamp-loyw3v28" = some row ∧
      row.product =
        { id := nextProductId exampleDb, title := title, slug := "red-lamp-loyw3v28",
          description := redLamp.description, price := price,
          image_path := redLamp.image_path, category_id := orNull redLamp.category_id,
          created_at := exampleClock.timestamp } ∧
      row.product ∉ exampleDb.products ∧
      (redLamp.category_id = none → row.product.category_id = none ∧
        row.category_name = none ∧ row.category_slug = none) :=
  ⟨rfl, rfl,
    createProduct_getProductBySlug exampleEnv exampleClock exampleDb exampleDbWithRedLamp
      redLamp "red-lamp-loyw3v28" rfl⟩

/-- C9, failing input. Two `POST /admin/login` requests without a password field, from the
same anonymous session: for the existing username `admin` the handler reaches
`bcrypt.compareSync`, which throws on the absent password, and no `catch` receives it; for
the unknown username `nobody` the answer is the login view with `Identifiants invalides`.
The two responses differ, so the response tells whether the username exists. -/
theorem postLogin_absent_password_differs :
    (postLogin exampleEnv { anonymousRequest with username := some "admin" } exampleDb).response =
      .uncaught .bcryptArguments ∧
    (postLogin exampleEnv { anonymousRequest with username := some "nobody" } exampleDb).response =
      .render "admin/login" false { Locals.empty with error := some "Identifiants invalides" } ∧
    (postLogin exampleEnv { anonymousRequest with username := some "admin" } exampleDb).response ≠
      (postLogin exampleEnv { anonymousRequest with username := some "nobody" }
        exampleDb).response :=
  ⟨rfl, rfl, by decide⟩

end ParfaiteShop
